import Mathlib

/-!
Shallow embedding of src/src/strace.ebpf.c (the session controller and
orchestrator of the strace.ebpf syscall tracer).

The program is a single linear `main` calling external collaborators
(output setup, child start, eBPF generation, compilation, probe attach,
perf polling, non-blocking waits and liveness probes).  We embed it as an
executable Lean function over an environment record recording the outcome
of every external call, producing the process exit outcome, the ordered
trace of observable side effects (output sink opened, child started,
signals sent, probes attached/detached, output flushed), and the final
value of the global `PidToBeKilled`.

The polling loop (lines 261-305 of the source) is embedded as structural
recursion over the list of per-wakeup observations supplied by the
environment; an exhausted list with no termination condition models a run
still inside the loop.
-/

namespace StraceEbpf

/-- C constant `EXIT_SUCCESS`. -/
def EXIT_SUCCESS : Nat := 0

/-- C constant `EXIT_FAILURE`. -/
def EXIT_FAILURE : Nat := 1

/-- Tracing mode `TRACING_ALL = 0`: all syscalls in the system. -/
def TRACING_ALL : Nat := 0

/-- Tracing mode `TRACING_CMD = 1`: a process given by the command. -/
def TRACING_CMD : Nat := 1

/-- Tracing mode `TRACING_PID = 2`: a process given by the PID. -/
def TRACING_PID : Nat := 2

/-- The fields of `struct cl_options Args` that the control flow of
`check_args` and `main` reads: whether a command was supplied
(`args->command` non-null), the target pid (`args->pid`, `-1` when none),
the follow-fork flag and the debug flag. -/
structure ClOptions where
  command : Bool
  pid : Int
  ff_mode : Bool
  debug : Bool
deriving DecidableEq

/-- Observable side effects of a run, in program order. -/
inductive Event where
  /-- `fprint_help(stderr)`: usage guidance shown. -/
  | usage
  /-- `setup_out_lf()`: the output sink is opened (or its opening attempted). -/
  | openOutput
  /-- `start_command(...)` succeeded: a stopped child with this pid exists. -/
  | startChild (pid : Int)
  /-- `attach_probes(b)` succeeded: probes are attached. -/
  | attachProbes
  /-- `kill(pid, SIGCONT)`: the stopped child is resumed. -/
  | sigcont (pid : Int)
  /-- `kill(pid, SIGKILL)`: the marked child is force-terminated. -/
  | sigkill (pid : Int)
  /-- `detach_all(b)`: every attached probe is detached. -/
  | detachAll
  /-- `fflush(Out_lf)`: buffered output is flushed. -/
  | flushOutput
deriving DecidableEq

/-- Result of `check_args` (source lines 87-112).  In C the error branches
call `exit(EXIT_FAILURE)` directly; we reify that as `exitFailure`,
recording whether `fprint_help` was called first. -/
inductive CheckArgsResult where
  | exitFailure (usageShown : Bool)
  | ok (tracing : Nat)
deriving DecidableEq

/-- Embedding of `check_args` (source lines 87-112).  `pidAlive` is the
outcome of the zero-signal liveness probe `kill(Args.pid, 0) == 0`. -/
def check_args (args : ClOptions) (pidAlive : Bool) : CheckArgsResult :=
  if args.command = true ∧ 0 < args.pid then
    CheckArgsResult.exitFailure true
  else if 0 < args.pid then
    if pidAlive = false then
      CheckArgsResult.exitFailure false
    else
      CheckArgsResult.ok TRACING_PID
  else if args.command = true then
    CheckArgsResult.ok TRACING_CMD
  else
    CheckArgsResult.ok TRACING_ALL

/-- Observations made during one wakeup of the polling loop: the two
`SessionState` flags as read after `perf_reader_poll` returns, the result
of the non-blocking `waitpid(-1, NULL, WNOHANG)` call together with
whether `errno == ECHILD`, and the outcome of the liveness probe
`kill(Args.pid, 0) == 0`. -/
structure PollObs where
  outputError : Bool
  abortTracing : Bool
  waitpidResult : Int
  errnoEchild : Bool
  pidAlive : Bool
deriving DecidableEq

/-- Outcomes of every external call `main` makes, in call order, plus the
stream of per-wakeup observations feeding the polling loop.
`startCommandPid` is the return value of `start_command` (`-1` models
failure). -/
structure Env where
  pidAliveAtCheck : Bool
  outLfOk : Bool
  prctlOk : Bool
  startCommandPid : Int
  generateOk : Bool
  callocCtxOk : Bool
  compileOk : Bool
  attachProbesOk : Bool
  printHeaderOk : Bool
  attachCallbackOk : Bool
  callocReadersOk : Bool
  pollObs : List PollObs
deriving DecidableEq

/-- Why the polling loop ended: `OutputError` break, `AbortTracing` break,
or the mode-specific termination test setting `stop_tracing = 1`. -/
inductive LoopExit where
  | outputError
  | abortSignal
  | scopeDone
deriving DecidableEq

/-- The mode-specific termination test of the polling loop (the `switch`
at source lines 276-304), evaluated on one wakeup observation: `true`
exactly when the iteration sets `stop_tracing = 1`. -/
def stopCond (tracing : Nat) (ffMode : Bool) (pid : Int) (obs : PollObs) : Bool :=
  if tracing = 1 then
    if ffMode then
      decide (obs.waitpidResult = -1) && obs.errnoEchild
    else
      decide (obs.waitpidResult = pid)
  else if tracing = 2 then
    !obs.pidAlive
  else
    false

/-- Embedding of the polling loop (source lines 261-305) as recursion
over the list of wakeup observations.  Each iteration: poll returns, the
`OutputError` flag is checked, then `AbortTracing`, then the mode-specific
termination test.  `none` models a run still blocked inside the loop when
the observation stream is exhausted. -/
def runLoop (tracing : Nat) (ffMode : Bool) (pid : Int) :
    List PollObs → Option LoopExit
  | [] => none
  | obs :: rest =>
    if obs.outputError = true then
      some LoopExit.outputError
    else if obs.abortTracing = true then
      some LoopExit.abortSignal
    else if stopCond tracing ffMode pid obs = true then
      some LoopExit.scopeDone
    else
      runLoop tracing ffMode pid rest

/-- The events emitted by the `error_kill` label (source lines 314-318):
`if (PidToBeKilled) kill(PidToBeKilled, SIGKILL);`. -/
def killEvents (pidToBeKilled : Int) : List Event :=
  if pidToBeKilled ≠ 0 then [Event.sigkill pidToBeKilled] else []

/-- Whether the embedded process has exited (with which status) or is
still blocked inside the polling loop. -/
inductive RunOutcome where
  | running
  | exited (code : Nat)
deriving DecidableEq

/-- Result of an embedded run of `main`: the outcome, the ordered trace
of observable events, and the final value of the global `PidToBeKilled`
(initially `0`, assigned only at source line 176). -/
structure RunResult where
  outcome : RunOutcome
  events : List Event
  pidToBeKilled : Int
deriving DecidableEq

/-- Embedding of `main` from the call to `setup_out_lf` on (source lines
139-319), given the tracing mode `check_args` returned.  Each C early
`return EXIT_FAILURE` becomes a `RunResult` with the events accumulated so
far; `goto error_detach` appends `detachAll` then the `error_kill` events;
`goto error_kill` appends only the `error_kill` events; loop termination
flows to `fflush`, `detach_all`, `return EXIT_SUCCESS`. -/
def main_traced (args : ClOptions) (env : Env) (tracing : Nat) : RunResult :=
  let events0 : List Event := [Event.openOutput]
  if env.outLfOk = false then
    { outcome := RunOutcome.exited EXIT_FAILURE, events := events0,
      pidToBeKilled := 0 }
  else if args.ff_mode = true ∧ env.prctlOk = false then
    { outcome := RunOutcome.exited EXIT_FAILURE, events := events0,
      pidToBeKilled := 0 }
  else if args.command = true ∧ env.startCommandPid = -1 then
    { outcome := RunOutcome.exited EXIT_FAILURE, events := events0,
      pidToBeKilled := 0 }
  else
    let pid : Int := if args.command = true then env.startCommandPid else args.pid
    let ptbk : Int := if args.command = true then env.startCommandPid else 0
    let events1 : List Event :=
      if args.command = true then
        events0 ++ [Event.startChild env.startCommandPid]
      else events0
    if env.generateOk = false then
      { outcome := RunOutcome.exited EXIT_FAILURE, events := events1,
        pidToBeKilled := ptbk }
    else if env.callocCtxOk = false then
      { outcome := RunOutcome.exited EXIT_FAILURE, events := events1,
        pidToBeKilled := ptbk }
    else if env.compileOk = false then
      { outcome := RunOutcome.exited EXIT_FAILURE, events := events1,
        pidToBeKilled := ptbk }
    else if env.attachProbesOk = false then
      { outcome := RunOutcome.exited EXIT_FAILURE,
        events := events1 ++ killEvents ptbk, pidToBeKilled := ptbk }
    else
      let events2 : List Event := events1 ++ [Event.attachProbes]
      if env.printHeaderOk = false then
        { outcome := RunOutcome.exited EXIT_FAILURE,
          events := events2 ++ [Event.detachAll] ++ killEvents ptbk,
          pidToBeKilled := ptbk }
      else if env.attachCallbackOk = false then
        { outcome := RunOutcome.exited EXIT_FAILURE,
          events := events2 ++ [Event.detachAll] ++ killEvents ptbk,
          pidToBeKilled := ptbk }
      else
        let events3 : List Event :=
          if args.command = true then events2 ++ [Event.sigcont pid] else events2
        if env.callocReadersOk = false then
          { outcome := RunOutcome.exited EXIT_FAILURE,
            events := events3 ++ [Event.detachAll] ++ killEvents ptbk,
            pidToBeKilled := ptbk }
        else
          match runLoop tracing args.ff_mode pid env.pollObs with
          | none =>
            { outcome := RunOutcome.running, events := events3,
              pidToBeKilled := ptbk }
          | some _ =>
            { outcome := RunOutcome.exited EXIT_SUCCESS,
              events := events3 ++ [Event.flushOutput, Event.detachAll],
              pidToBeKilled := ptbk }

/-- Embedding of `main` (source lines 114-320): parse and check the
arguments, then run the rest of the session. -/
def main (args : ClOptions) (env : Env) : RunResult :=
  match check_args args env.pidAliveAtCheck with
  | CheckArgsResult.exitFailure usageShown =>
    { outcome := RunOutcome.exited EXIT_FAILURE,
      events := if usageShown then [Event.usage] else [],
      pidToBeKilled := 0 }
  | CheckArgsResult.ok tracing => main_traced args env tracing

/-- Environment in which every external call succeeds and no poll wakeup
is observed. -/
def envAllOk : Env :=
  { pidAliveAtCheck := true, outLfOk := true, prctlOk := true,
    startCommandPid := 7, generateOk := true, callocCtxOk := true,
    compileOk := true, attachProbesOk := true, printHeaderOk := true,
    attachCallbackOk := true, callocReadersOk := true, pollObs := [] }

/-- Helper: when the command/pid conflict is absent and the liveness probe
succeeds whenever a pid was given, `check_args` returns a tracing mode
instead of exiting. -/
theorem check_args_ok (args : ClOptions) (pidAlive : Bool)
    (h1 : ¬(args.command = true ∧ 0 < args.pid))
    (h2 : 0 < args.pid → pidAlive = true) :
    ∃ t, check_args args pidAlive = CheckArgsResult.ok t := by
  unfold check_args
  by_cases hp : 0 < args.pid
  · have hc : ¬ args.command = true := fun hc => h1 ⟨hc, hp⟩
    simp [h1, hp, h2 hp, hc]
  · by_cases hc : args.command = true <;> simp [h1, hp, hc]

/-- C5: for every configuration in which both a command and a target pid
are set, `main` rejects the session with `EXIT_FAILURE` and usage
guidance before any side effect: the output sink is never opened and no
process is started. -/
theorem conflict_rejected_before_side_effects (args : ClOptions) (env : Env)
    (hcmd : args.command = true) (hpid : 0 < args.pid) :
    (main args env).outcome = RunOutcome.exited EXIT_FAILURE ∧
    Event.usage ∈ (main args env).events ∧
    Event.openOutput ∉ (main args env).events ∧
    ∀ p, Event.startChild p ∉ (main args env).events := by
  simp [main, check_args, hcmd, hpid]

/-- C5 witness: the conflict rejection evaluated at a concrete
configuration (command set, pid 5). -/
theorem conflict_rejected_before_side_effects_witness :
    (main ⟨true, 5, false, false⟩ envAllOk).outcome = RunOutcome.exited EXIT_FAILURE ∧
    Event.usage ∈ (main ⟨true, 5, false, false⟩ envAllOk).events ∧
    Event.openOutput ∉ (main ⟨true, 5, false, false⟩ envAllOk).events ∧
    ∀ p, Event.startChild p ∉ (main ⟨true, 5, false, false⟩ envAllOk).events :=
  conflict_rejected_before_side_effects ⟨true, 5, false, false⟩ envAllOk rfl (by decide)

/-- C6: for every configuration giving a target pid whose liveness probe
fails, `main` exits with `EXIT_FAILURE` before the output sink is opened:
the event trace is empty, so no sink is created and no probes attach. -/
theorem target_not_found_rejected_before_output (args : ClOptions) (env : Env)
    (hcmd : args.command = false) (hpid : 0 < args.pid)
    (hdead : env.pidAliveAtCheck = false) :
    (main args env).outcome = RunOutcome.exited EXIT_FAILURE ∧
    (main args env).events = [] ∧
    Event.openOutput ∉ (main args env).events ∧
    Event.attachProbes ∉ (main args env).events := by
  simp [main, check_args, hcmd, hpid, hdead]

/-- C6 witness: the target-not-found rejection evaluated at a concrete
configuration (pid 42, probe fails). -/
theorem target_not_found_rejected_before_output_witness :
    (main ⟨false, 42, false, false⟩
        { envAllOk with pidAliveAtCheck := false }).outcome =
      RunOutcome.exited EXIT_FAILURE ∧
    (main ⟨false, 42, false, false⟩
        { envAllOk with pidAliveAtCheck := false }).events = [] ∧
    Event.openOutput ∉ (main ⟨false, 42, false, false⟩
        { envAllOk with pidAliveAtCheck := false }).events ∧
    Event.attachProbes ∉ (main ⟨false, 42, false, false⟩
        { envAllOk with pidAliveAtCheck := false }).events :=
  target_not_found_rejected_before_output ⟨false, 42, false, false⟩
    { envAllOk with pidAliveAtCheck := false } rfl (by decide) rfl

/-- C9: whichever flag is set, every iteration of the polling loop — in
every tracing mode, whatever the mode-specific observations hold — ends
the loop right after the poll call returns: `OutputError` is checked
first, then `AbortTracing`, before any mode-specific termination test. -/
theorem flags_checked_every_iteration (tracing : Nat) (ffMode : Bool)
    (pid : Int) (obs : PollObs) (rest : List PollObs)
    (h : obs.outputError = true ∨ obs.abortTracing = true) :
    runLoop tracing ffMode pid (obs :: rest) =
      some (if obs.outputError = true then LoopExit.outputError
            else LoopExit.abortSignal) := by
  cases hoe : obs.outputError with
  | true => simp [runLoop, hoe]
  | false =>
    rcases h with h | h
    · rw [hoe] at h; exact absurd h (by simp)
    · simp [runLoop, hoe, h]

/-- C9 witness: a wakeup with the cancellation flag set ends the loop at
concrete inputs. -/
theorem flags_checked_every_iteration_witness :
    runLoop TRACING_ALL false (-1)
        ({ outputError := false, abortTracing := true, waitpidResult := 0,
           errnoEchild := false, pidAlive := true } :: []) =
      some (if ({ outputError := false, abortTracing := true,
                  waitpidResult := 0, errnoEchild := false,
                  pidAlive := true } : PollObs).outputError = true then
              LoopExit.outputError
            else LoopExit.abortSignal) :=
  flags_checked_every_iteration TRACING_ALL false (-1)
    { outputError := false, abortTracing := true, waitpidResult := 0,
      errnoEchild := false, pidAlive := true } [] (Or.inr rfl)

/-- C4: on a wakeup with neither flag set, the loop's termination test
matches the tracing mode: ALL never self-terminates (any loop exit in ALL
mode is a flag exit), COMMAND without follow-fork stops exactly when the
non-blocking wait returns the started pid, COMMAND with follow-fork stops
exactly when the wait fails with no children remaining, and PID stops
exactly when the liveness probe fails; and the loop continues otherwise. -/
theorem loop_termination_matches_mode (ffMode : Bool) (pid : Int)
    (obs : PollObs) (rest : List PollObs)
    (hoe : obs.outputError = false) (hab : obs.abortTracing = false) :
    (stopCond TRACING_ALL ffMode pid obs = false) ∧
    (∀ l e, runLoop TRACING_ALL ffMode pid l = some e →
      e = LoopExit.outputError ∨ e = LoopExit.abortSignal) ∧
    (stopCond TRACING_CMD false pid obs = true ↔ obs.waitpidResult = pid) ∧
    (stopCond TRACING_CMD true pid obs = true ↔
      (obs.waitpidResult = -1 ∧ obs.errnoEchild = true)) ∧
    (stopCond TRACING_PID ffMode pid obs = true ↔ obs.pidAlive = false) ∧
    (∀ t, runLoop t ffMode pid (obs :: rest) =
      if stopCond t ffMode pid obs = true then some LoopExit.scopeDone
      else runLoop t ffMode pid rest) := by
  refine ⟨by simp [stopCond, TRACING_ALL], ?_, by simp [stopCond, TRACING_CMD],
    by simp [stopCond, TRACING_CMD], by simp [stopCond, TRACING_PID], ?_⟩
  · intro l
    induction l with
    | nil => intro e h; simp [runLoop] at h
    | cons o l ih =>
      intro e h
      by_cases h1 : o.outputError = true
      · simp [runLoop, h1] at h; simp [h.symm]
      · by_cases h2 : o.abortTracing = true
        · simp [runLoop, h1, h2] at h; simp [h.symm]
        · simp [runLoop, h1, h2, stopCond, TRACING_ALL] at h
          exact ih e h
  · intro t
    simp [runLoop, hoe, hab]

/-- C4 witness: the mode-matched termination test evaluated at a concrete
wakeup observation. -/
theorem loop_termination_matches_mode_witness :
    (stopCond TRACING_ALL false 3
        { outputError := false, abortTracing := false, waitpidResult := 3,
          errnoEchild := false, pidAlive := true } = false) ∧
    (∀ l e, runLoop TRACING_ALL false 3 l = some e →
      e = LoopExit.outputError ∨ e = LoopExit.abortSignal) ∧
    (stopCond TRACING_CMD false 3
        { outputError := false, abortTracing := false, waitpidResult := 3,
          errnoEchild := false, pidAlive := true } = true ↔
      ({ outputError := false, abortTracing := false, waitpidResult := 3,
         errnoEchild := false, pidAlive := true } : PollObs).waitpidResult = 3) ∧
    (stopCond TRACING_CMD true 3
        { outputError := false, abortTracing := false, waitpidResult := 3,
          errnoEchild := false, pidAlive := true } = true ↔
      (({ outputError := false, abortTracing := false, waitpidResult := 3,
          errnoEchild := false, pidAlive := true } : PollObs).waitpidResult = -1 ∧
       ({ outputError := false, abortTracing := false, waitpidResult := 3,
          errnoEchild := false, pidAlive := true } : PollObs).errnoEchild = true)) ∧
    (stopCond TRACING_PID false 3
        { outputError := false, abortTracing := false, waitpidResult := 3,
          errnoEchild := false, pidAlive := true } = true ↔
      ({ outputError := false, abortTracing := false, waitpidResult := 3,
         errnoEchild := false, pidAlive := true } : PollObs).pidAlive = false) ∧
    (∀ t, runLoop t false 3
        ({ outputError := false, abortTracing := false, waitpidResult := 3,
           errnoEchild := false, pidAlive := true } :: []) =
      if stopCond t false 3
          { outputError := false, abortTracing := false, waitpidResult := 3,
            errnoEchild := false, pidAlive := true } = true then
        some LoopExit.scopeDone
      else runLoop t false 3 []) :=
  loop_termination_matches_mode false 3
    { outputError := false, abortTracing := false, waitpidResult := 3,
      errnoEchild := false, pidAlive := true } [] rfl rfl

/-- Helper: when every startup call succeeds and the polling loop exits
(for any reason), `main_traced` flushes the output, detaches all probes
and returns `EXIT_SUCCESS` — source lines 307-310 are the unique
continuation of every loop exit. -/
theorem main_traced_loop_exit_success (args : ClOptions) (env : Env) (t : Nat)
    (h3 : env.outLfOk = true)
    (h4 : args.ff_mode = true → env.prctlOk = true)
    (h5 : args.command = true → env.startCommandPid ≠ -1)
    (h6 : env.generateOk = true) (h7 : env.callocCtxOk = true)
    (h8 : env.compileOk = true) (h9 : env.attachProbesOk = true)
    (h10 : env.printHeaderOk = true) (h11 : env.attachCallbackOk = true)
    (h12 : env.callocReadersOk = true)
    (hloop : ∀ pid, runLoop t args.ff_mode pid env.pollObs ≠ none) :
    (main_traced args env t).outcome = RunOutcome.exited EXIT_SUCCESS ∧
    Event.flushOutput ∈ (main_traced args env t).events ∧
    Event.detachAll ∈ (main_traced args env t).events := by
  have hc2 : ¬(args.ff_mode = true ∧ env.prctlOk = false) := by
    rintro ⟨ha, hb⟩
    rw [h4 ha] at hb
    exact Bool.noConfusion hb
  have hc3 : ¬(args.command = true ∧ env.startCommandPid = -1) := by
    rintro ⟨ha, hb⟩
    exact h5 ha hb
  cases hl : runLoop t args.ff_mode
      (if args.command = true then env.startCommandPid else args.pid)
      env.pollObs with
  | none => exact absurd hl (hloop _)
  | some e =>
    simp [main_traced, h3, hc2, hc3, h6, h7, h8, h9, h10, h11, h12, hl]

/-- Environment for a run in ALL mode whose first poll wakeup observes the
output-error flag, with every startup call succeeding. -/
def envOutputError : Env :=
  { pidAliveAtCheck := true, outLfOk := true, prctlOk := true,
    startCommandPid := 0, generateOk := true, callocCtxOk := true,
    compileOk := true, attachProbesOk := true, printHeaderOk := true,
    attachCallbackOk := true, callocReadersOk := true,
    pollObs := [{ outputError := true, abortTracing := false,
                  waitpidResult := 0, errnoEchild := false,
                  pidAlive := true }] }

/-- C1 counterexample: in ALL mode, with the output-error flag set on the
first poll wakeup, the loop terminates, output is flushed and probes are
detached — but the process exits with `EXIT_SUCCESS` (0), not a nonzero
failure status as claimed. -/
theorem output_error_exit_status_counterexample :
    (main ⟨false, -1, false, false⟩ envOutputError).outcome =
      RunOutcome.exited EXIT_SUCCESS ∧
    (main ⟨false, -1, false, false⟩ envOutputError).outcome ≠
      RunOutcome.exited EXIT_FAILURE ∧
    Event.flushOutput ∈ (main ⟨false, -1, false, false⟩ envOutputError).events ∧
    Event.detachAll ∈ (main ⟨false, -1, false, false⟩ envOutputError).events := by
  decide

/-- C1 (amended): if the output-error flag is set by the formatter during
the polling loop, the loop terminates, output is flushed and all probes
are detached, and the process exits with success (`EXIT_SUCCESS`, 0) —
the loop-exit continuation is shared with graceful termination. -/
theorem output_error_graceful_exit_success (args : ClOptions) (env : Env)
    (h1 : ¬(args.command = true ∧ 0 < args.pid))
    (h2 : 0 < args.pid → env.pidAliveAtCheck = true)
    (h3 : env.outLfOk = true)
    (h4 : args.ff_mode = true → env.prctlOk = true)
    (h5 : args.command = true → env.startCommandPid ≠ -1)
    (h6 : env.generateOk = true) (h7 : env.callocCtxOk = true)
    (h8 : env.compileOk = true) (h9 : env.attachProbesOk = true)
    (h10 : env.printHeaderOk = true) (h11 : env.attachCallbackOk = true)
    (h12 : env.callocReadersOk = true)
    (obs : PollObs) (rest : List PollObs)
    (hobs : env.pollObs = obs :: rest)
    (hoe : obs.outputError = true) :
    (main args env).outcome = RunOutcome.exited EXIT_SUCCESS ∧
    Event.flushOutput ∈ (main args env).events ∧
    Event.detachAll ∈ (main args env).events := by
  obtain ⟨t, ht⟩ := check_args_ok args env.pidAliveAtCheck h1 h2
  have hmain : main args env = main_traced args env t := by
    simp [main, ht]
  rw [hmain]
  refine main_traced_loop_exit_success args env t h3 h4 h5 h6 h7 h8 h9 h10 h11
    h12 ?_
  intro pid
  rw [hobs]
  simp [runLoop, hoe]

/-- C1 witness: the amended output-error termination evaluated at the
concrete ALL-mode run of the counterexample environment. -/
theorem output_error_graceful_exit_success_witness :
    (main ⟨false, -1, false, false⟩ envOutputError).outcome =
      RunOutcome.exited EXIT_SUCCESS ∧
    Event.flushOutput ∈ (main ⟨false, -1, false, false⟩ envOutputError).events ∧
    Event.detachAll ∈ (main ⟨false, -1, false, false⟩ envOutputError).events :=
  output_error_graceful_exit_success ⟨false, -1, false, false⟩ envOutputError
    (by decide) (by decide) rfl (by decide) (by decide) rfl rfl rfl rfl rfl rfl
    rfl { outputError := true, abortTracing := false, waitpidResult := 0,
          errnoEchild := false, pidAlive := true } [] rfl rfl

/-- Environment for a run whose first poll wakeup observes the
cancellation flag, with every startup call succeeding. -/
def envAbort : Env :=
  { pidAliveAtCheck := true, outLfOk := true, prctlOk := true,
    startCommandPid := 0, generateOk := true, callocCtxOk := true,
    compileOk := true, attachProbesOk := true, printHeaderOk := true,
    attachCallbackOk := true, callocReadersOk := true,
    pollObs := [{ outputError := false, abortTracing := true,
                  waitpidResult := 0, errnoEchild := false,
                  pidAlive := true }] }

/-- C7: when the cancellation flag (`AbortTracing`) is observed during the
polling loop, the session terminates gracefully in every mode: the loop
ends, output is flushed, all probes are detached, and the process exits
with `EXIT_SUCCESS` (0). -/
theorem abort_signal_graceful_exit_success (args : ClOptions) (env : Env)
    (h1 : ¬(args.command = true ∧ 0 < args.pid))
    (h2 : 0 < args.pid → env.pidAliveAtCheck = true)
    (h3 : env.outLfOk = true)
    (h4 : args.ff_mode = true → env.prctlOk = true)
    (h5 : args.command = true → env.startCommandPid ≠ -1)
    (h6 : env.generateOk = true) (h7 : env.callocCtxOk = true)
    (h8 : env.compileOk = true) (h9 : env.attachProbesOk = true)
    (h10 : env.printHeaderOk = true) (h11 : env.attachCallbackOk = true)
    (h12 : env.callocReadersOk = true)
    (obs : PollObs) (rest : List PollObs)
    (hobs : env.pollObs = obs :: rest)
    (hab : obs.abortTracing = true) :
    (main args env).outcome = RunOutcome.exited EXIT_SUCCESS ∧
    Event.flushOutput ∈ (main args env).events ∧
    Event.detachAll ∈ (main args env).events := by
  obtain ⟨t, ht⟩ := check_args_ok args env.pidAliveAtCheck h1 h2
  have hmain : main args env = main_traced args env t := by
    simp [main, ht]
  rw [hmain]
  refine main_traced_loop_exit_success args env t h3 h4 h5 h6 h7 h8 h9 h10 h11
    h12 ?_
  intro pid
  rw [hobs]
  cases hoe : obs.outputError <;> simp [runLoop, hoe, hab]

/-- C7 witness: the graceful abort termination evaluated at a concrete
ALL-mode run whose first wakeup observes the cancellation flag. -/
theorem abort_signal_graceful_exit_success_witness :
    (main ⟨false, -1, false, false⟩ envAbort).outcome =
      RunOutcome.exited EXIT_SUCCESS ∧
    Event.flushOutput ∈ (main ⟨false, -1, false, false⟩ envAbort).events ∧
    Event.detachAll ∈ (main ⟨false, -1, false, false⟩ envAbort).events :=
  abort_signal_graceful_exit_success ⟨false, -1, false, false⟩ envAbort
    (by decide) (by decide) rfl (by decide) (by decide) rfl rfl rfl rfl rfl rfl
    rfl { outputError := false, abortTracing := true, waitpidResult := 0,
          errnoEchild := false, pidAlive := true } [] rfl rfl

/-- Environment for a COMMAND-mode run in which the child starts (pid
12345) and `generate_ebpf` then fails. -/
def envGenerateFails : Env :=
  { pidAliveAtCheck := true, outLfOk := true, prctlOk := true,
    startCommandPid := 12345, generateOk := false, callocCtxOk := true,
    compileOk := true, attachProbesOk := true, printHeaderOk := true,
    attachCallbackOk := true, callocReadersOk := true, pollObs := [] }

/-- Environment for a COMMAND-mode run in which the child starts (pid
12345) and compilation of the generated eBPF code then fails. -/
def envCompileFails : Env :=
  { pidAliveAtCheck := true, outLfOk := true, prctlOk := true,
    startCommandPid := 12345, generateOk := true, callocCtxOk := true,
    compileOk := false, attachProbesOk := true, printHeaderOk := true,
    attachCallbackOk := true, callocReadersOk := true, pollObs := [] }

/-- C2: in COMMAND mode, when `generate_ebpf` fails or when compilation of
the generated code fails, `main` returns `EXIT_FAILURE` directly without
passing the `error_kill` label: the stopped child (still marked in
`PidToBeKilled`) is never sent SIGKILL, contradicting the claimed
force-termination guarantee (and the intent of the marker set at source
line 176). -/
theorem child_not_killed_on_generate_or_compile_failure :
    ((main ⟨true, -1, false, false⟩ envGenerateFails).outcome =
       RunOutcome.exited EXIT_FAILURE ∧
     (main ⟨true, -1, false, false⟩ envGenerateFails).events =
       [Event.openOutput, Event.startChild 12345] ∧
     (main ⟨true, -1, false, false⟩ envGenerateFails).pidToBeKilled = 12345 ∧
     Event.sigkill 12345 ∉ (main ⟨true, -1, false, false⟩ envGenerateFails).events) ∧
    ((main ⟨true, -1, false, false⟩ envCompileFails).outcome =
       RunOutcome.exited EXIT_FAILURE ∧
     (main ⟨true, -1, false, false⟩ envCompileFails).events =
       [Event.openOutput, Event.startChild 12345] ∧
     (main ⟨true, -1, false, false⟩ envCompileFails).pidToBeKilled = 12345 ∧
     Event.sigkill 12345 ∉ (main ⟨true, -1, false, false⟩ envCompileFails).events) := by
  decide

/-- Environment for a COMMAND-mode run in which everything succeeds up to
and including the perf-output callback attachment (so the child, pid 77,
is resumed with SIGCONT), and the readers array allocation then fails. -/
def envReadersFail : Env :=
  { pidAliveAtCheck := true, outLfOk := true, prctlOk := true,
    startCommandPid := 77, generateOk := true, callocCtxOk := true,
    compileOk := true, attachProbesOk := true, printHeaderOk := true,
    attachCallbackOk := true, callocReadersOk := false, pollObs := [] }

/-- C3 counterexample: after the child (pid 77) is successfully resumed
(`sigcont 77` is in the trace), the to-be-killed marker still holds 77 —
it is never cleared — and the abort path taken when the readers array
allocation fails sends SIGKILL to the already-resumed child. -/
theorem resumed_child_killed_counterexample :
    Event.sigcont 77 ∈ (main ⟨true, -1, false, false⟩ envReadersFail).events ∧
    Event.sigkill 77 ∈ (main ⟨true, -1, false, false⟩ envReadersFail).events ∧
    (main ⟨true, -1, false, false⟩ envReadersFail).pidToBeKilled = 77 := by
  decide

/-- C3 (amended): in COMMAND mode the to-be-killed marker is never
cleared, not even after the resume succeeds; consequently the abort path
reachable after a successful resume (failure to allocate the readers
array) still sends SIGKILL to the already-resumed child, and the run
exits with failure. -/
theorem pid_to_be_killed_never_cleared (args : ClOptions) (env : Env)
    (hcmd : args.command = true) (hpid : ¬ 0 < args.pid)
    (h3 : env.outLfOk = true)
    (h4 : args.ff_mode = true → env.prctlOk = true)
    (hsp : 0 < env.startCommandPid)
    (h6 : env.generateOk = true) (h7 : env.callocCtxOk = true)
    (h8 : env.compileOk = true) (h9 : env.attachProbesOk = true)
    (h10 : env.printHeaderOk = true) (h11 : env.attachCallbackOk = true)
    (h12 : env.callocReadersOk = false) :
    (main args env).outcome = RunOutcome.exited EXIT_FAILURE ∧
    Event.sigcont env.startCommandPid ∈ (main args env).events ∧
    Event.sigkill env.startCommandPid ∈ (main args env).events ∧
    (main args env).pidToBeKilled = env.startCommandPid := by
  have hc2 : ¬(args.ff_mode = true ∧ env.prctlOk = false) := by
    rintro ⟨ha, hb⟩
    rw [h4 ha] at hb
    exact Bool.noConfusion hb
  have hsp1 : ¬ env.startCommandPid = -1 := by
    intro h
    rw [h] at hsp
    exact absurd hsp (by decide)
  have hsp0 : env.startCommandPid ≠ 0 := by
    intro h
    rw [h] at hsp
    exact absurd hsp (by decide)
  simp [main, check_args, main_traced, killEvents, hcmd, hpid, h3, hc2, hsp1,
    hsp0, h6, h7, h8, h9, h10, h11, h12]

/-- C3 witness: the amended statement evaluated at the concrete
COMMAND-mode run of the counterexample environment. -/
theorem pid_to_be_killed_never_cleared_witness :
    (main ⟨true, -1, false, false⟩ envReadersFail).outcome =
      RunOutcome.exited EXIT_FAILURE ∧
    Event.sigcont envReadersFail.startCommandPid ∈
      (main ⟨true, -1, false, false⟩ envReadersFail).events ∧
    Event.sigkill envReadersFail.startCommandPid ∈
      (main ⟨true, -1, false, false⟩ envReadersFail).events ∧
    (main ⟨true, -1, false, false⟩ envReadersFail).pidToBeKilled =
      envReadersFail.startCommandPid :=
  pid_to_be_killed_never_cleared ⟨true, -1, false, false⟩ envReadersFail rfl
    (by decide) rfl (by decide) (by decide) rfl rfl rfl rfl rfl rfl rfl

/-- C8: if printing the header record fails after probes were attached,
the session detaches everything (`detachAll` is in the trace), exits with
`EXIT_FAILURE`, and force-kills any still-marked launched child. -/
theorem header_failure_detach_and_kill (args : ClOptions) (env : Env)
    (h1 : ¬(args.command = true ∧ 0 < args.pid))
    (h2 : 0 < args.pid → env.pidAliveAtCheck = true)
    (h3 : env.outLfOk = true)
    (h4 : args.ff_mode = true → env.prctlOk = true)
    (h5 : args.command = true → env.startCommandPid ≠ -1)
    (h6 : env.generateOk = true) (h7 : env.callocCtxOk = true)
    (h8 : env.compileOk = true) (h9 : env.attachProbesOk = true)
    (h10 : env.printHeaderOk = false) :
    (main args env).outcome = RunOutcome.exited EXIT_FAILURE ∧
    Event.attachProbes ∈ (main args env).events ∧
    Event.detachAll ∈ (main args env).events ∧
    ((main args env).pidToBeKilled ≠ 0 →
      Event.sigkill ((main args env).pidToBeKilled) ∈ (main args env).events) := by
  obtain ⟨t, ht⟩ := check_args_ok args env.pidAliveAtCheck h1 h2
  have hmain : main args env = main_traced args env t := by
    simp [main, ht]
  have hc2 : ¬(args.ff_mode = true ∧ env.prctlOk = false) := by
    rintro ⟨ha, hb⟩
    rw [h4 ha] at hb
    exact Bool.noConfusion hb
  have hc3 : ¬(args.command = true ∧ env.startCommandPid = -1) := by
    rintro ⟨ha, hb⟩
    exact h5 ha hb
  rw [hmain]
  by_cases hcm : args.command = true
  · have hsp := h5 hcm
    by_cases hz : env.startCommandPid = 0 <;>
      simp [main_traced, killEvents, h3, hc2, h6, h7, h8, h9, h10, hcm, hsp, hz]
  · simp [main_traced, killEvents, h3, hc2, h6, h7, h8, h9, h10, hcm]

/-- Environment for a COMMAND-mode run (child pid 9) in which printing the
header fails after probes were attached. -/
def envHeaderFails : Env :=
  { pidAliveAtCheck := true, outLfOk := true, prctlOk := true,
    startCommandPid := 9, generateOk := true, callocCtxOk := true,
    compileOk := true, attachProbesOk := true, printHeaderOk := false,
    attachCallbackOk := true, callocReadersOk := true, pollObs := [] }

/-- C8 witness: the header-failure cleanup evaluated at a concrete
COMMAND-mode run with child pid 9. -/
theorem header_failure_detach_and_kill_witness :
    (main ⟨true, -1, false, false⟩ envHeaderFails).outcome =
      RunOutcome.exited EXIT_FAILURE ∧
    Event.attachProbes ∈ (main ⟨true, -1, false, false⟩ envHeaderFails).events ∧
    Event.detachAll ∈ (main ⟨true, -1, false, false⟩ envHeaderFails).events ∧
    ((main ⟨true, -1, false, false⟩ envHeaderFails).pidToBeKilled ≠ 0 →
      Event.sigkill ((main ⟨true, -1, false, false⟩ envHeaderFails).pidToBeKilled) ∈
        (main ⟨true, -1, false, false⟩ envHeaderFails).events) :=
  header_failure_detach_and_kill ⟨true, -1, false, false⟩ envHeaderFails
    (by decide) (by decide) rfl (by decide) (by decide) rfl rfl rfl rfl rfl

/-- Predicate: a run result whose final `PidToBeKilled` is zero and whose
trace contains no SIGKILL. -/
def NoKill (r : RunResult) : Prop :=
  r.pidToBeKilled = 0 ∧ ∀ p, Event.sigkill p ∉ r.events

/-- Helper: `NoKill` distributes over a conditional. -/
theorem noKill_ite (c : Prop) [Decidable c] (a b : RunResult)
    (ha : NoKill a) (hb : NoKill b) : NoKill (if c then a else b) := by
  by_cases h : c
  · rw [if_pos h]; exact ha
  · rw [if_neg h]; exact hb

/-- Helper: `NoKill` holds of a result with zero marker whose events avoid
SIGKILL. -/
theorem noKill_mk (o : RunOutcome) (evs : List Event)
    (h : ∀ p, Event.sigkill p ∉ evs) : NoKill ⟨o, evs, 0⟩ :=
  ⟨rfl, h⟩

/-- Helper: without a command, `main_traced` never marks a pid to kill and
never emits SIGKILL, on every path. -/
theorem main_traced_no_sigkill (args : ClOptions) (env : Env) (t : Nat)
    (hcmd : args.command = false) : NoKill (main_traced args env t) := by
  cases hJ : runLoop t args.ff_mode args.pid env.pollObs <;>
    simp only [main_traced] <;>
    simp [hcmd, killEvents, hJ] <;>
    repeat (first | apply noKill_ite | (apply noKill_mk; intro p; simp))

/-- C10: whenever no command is supplied (ALL mode and PID mode), the
to-be-killed marker stays zero for the whole run and no SIGKILL is ever
sent: only COMMAND mode assigns `PidToBeKilled`. -/
theorem no_sigkill_without_command (args : ClOptions) (env : Env)
    (hcmd : args.command = false) :
    (main args env).pidToBeKilled = 0 ∧
    ∀ p, Event.sigkill p ∉ (main args env).events := by
  have h : NoKill (main args env) := by
    unfold main
    cases ht : check_args args env.pidAliveAtCheck with
    | exitFailure u =>
      cases u <;> refine noKill_mk _ _ ?_ <;> intro p <;> simp
    | ok t => exact main_traced_no_sigkill args env t hcmd
  exact h

/-- C10 witness: a PID-mode run (pid 42 alive throughout the single
wakeup) never sets the marker and never sends SIGKILL. -/
theorem no_sigkill_without_command_witness :
    (main ⟨false, 42, false, false⟩ envAllOk).pidToBeKilled = 0 ∧
    ∀ p, Event.sigkill p ∉ (main ⟨false, 42, false, false⟩ envAllOk).events :=
  no_sigkill_without_command ⟨false, 42, false, false⟩ envAllOk rfl

end StraceEbpf
